import Mathlib

/-!
Verification of the smart-dog-door control kernel.

Shallow embedding of the two transition-function iterations of the
repository: `src/smart_door/core.rs` (namespace `Core`) and
`src/smart_door/core_new.rs` (namespace `CoreNew`).

Modelling conventions:
* `Instant` and `Duration` are `Nat` (whole seconds);
  `Instant::duration_since` is saturating `Nat` subtraction and
  `Duration::from_secs 5` is the literal `5`.
* `f32` confidences are modelled as `Rat` with the same ordering.
* `Frame` (`Vec<u8>`) is a list of byte values.
* `Box<dyn Error>` payloads are opaque message strings; the code only ever
  matches on `Ok`/`Err` and formats errors, so `Except String` is faithful.
* `core.rs`'s `transition` calls `Instant::now()`; every such call inside
  one step is modelled as returning the explicit oracle argument `rtNow`
  (the wall-clock reading of that step). `core_new.rs`'s `transition`
  contains no `Instant::now()` call and needs no oracle.
-/

abbrev Instant : Type := Nat
abbrev Duration : Type := Nat
abbrev Frame : Type := List Nat

/-- `image_classifier/interface.rs`: `Classification { confidence, label }`. -/
structure Classification where
  confidence : Rat
  label : String
  deriving DecidableEq, Repr

/-- `config.rs`: `ClassificationConfig { label, min_confidence }`. -/
structure ClassificationConfig where
  label : String
  min_confidence : Rat
  deriving DecidableEq, Repr

/-- `config.rs`: `Config` (the `logger_timezone` offset is carried as its
seconds value; no transition reads it). -/
structure Config where
  tick_rate : Duration
  analyze_rate : Duration
  lock_list : List ClassificationConfig
  unlock_list : List ClassificationConfig
  logger_timezone : Int
  unlock_grace_period : Duration
  locking_grace_period : Duration
  deriving DecidableEq, Repr

/-- `config.rs`: `impl Default for Config` (west 7h offset = -25200 s). -/
def Config.default : Config :=
  { tick_rate := 1
    analyze_rate := 1
    logger_timezone := -25200
    unlock_grace_period := 3
    locking_grace_period := 3
    lock_list := [{ label := "cat", min_confidence := (1 : Rat) / 2 }]
    unlock_list := [{ label := "dog", min_confidence := (4 : Rat) / 5 }] }

/-- `device_camera/interface.rs`: `DeviceCameraEvent`. -/
inductive DeviceCameraEvent where
  | Disconnected
  | Connected
  deriving DecidableEq, Repr

/-- `device_door/interface.rs`: `DeviceDoorEvent`. -/
inductive DeviceDoorEvent where
  | Connected
  | Disconnected
  deriving DecidableEq, Repr

/-- Checks whether `pat` occurs at the head of `cs`
(`str::starts_with` on char lists). -/
def leadingMatch : List Char → List Char → Bool
  | [], _ => true
  | _ :: _, [] => false
  | p :: ps, c :: cs => p == c && leadingMatch ps cs

/-- Checks whether `pat` occurs contiguously anywhere in the list
(`str::contains` on char lists). -/
def occursIn (pat : List Char) : List Char → Bool
  | [] => leadingMatch pat []
  | c :: cs => leadingMatch pat (c :: cs) || occursIn pat cs

/-- One classification entry matches one config entry:
`c.label.to_lowercase().contains(&entry.label.to_lowercase())
  && c.confidence >= entry.min_confidence`
(the inner closure of the detection scans in `core.rs` lines 242-262 and
`core_new.rs` lines 308-328, which are textually identical). -/
def classificationMatches (c : Classification) (entry : ClassificationConfig) : Bool :=
  occursIn (entry.label.data.map Char.toLower) (c.label.data.map Char.toLower)
    && decide (entry.min_confidence ≤ c.confidence)

/-- `dog_detected` of `core.rs` lines 242-251 / `core_new.rs` lines 308-317:
any classification of any frame matches some `unlock_list` entry. -/
def dogDetected (config : Config) (classifications : List (List Classification)) : Bool :=
  classifications.any fun frame_class =>
    frame_class.any fun c =>
      config.unlock_list.any fun unlock_config => classificationMatches c unlock_config

/-- `cat_detected` of `core.rs` lines 253-262 / `core_new.rs` lines 319-328:
any classification of any frame matches some `lock_list` entry. -/
def catDetected (config : Config) (classifications : List (List Classification)) : Bool :=
  classifications.any fun frame_class =>
    frame_class.any fun c =>
      config.lock_list.any fun lock_config => classificationMatches c lock_config

namespace Core

/-- `core.rs`: `CameraState`. -/
inductive CameraState where
  | Disconnected
  | Connected (t : Instant)
  | Started
  deriving DecidableEq, Repr

/-- `core.rs`: `DoorState`. -/
inductive DoorState where
  | Disconnected
  | Connected (t : Instant)
  | Initialized
  | Locked
  | Unlocked
  deriving DecidableEq, Repr

/-- `core.rs`: `DeviceStates`. -/
structure DeviceStates where
  camera : CameraState
  door : DoorState
  deriving DecidableEq, Repr

/-- `core.rs`: `DeviceStates::default()` (both fields `#[default]`). -/
def DeviceStates.default : DeviceStates :=
  { camera := CameraState.Disconnected, door := DoorState.Disconnected }

/-- `core.rs`: `DoorAction`. -/
inductive DoorAction where
  | Locking
  | Unlocking
  deriving DecidableEq, Repr

/-- `core.rs`: `State`. -/
inductive State where
  | DevicesInitializing (device_states : DeviceStates)
  | AnalyzingFramesCapture (door_state : DoorState)
  | AnalyzingFramesClassifying (door_state : DoorState) (frames : List Frame)
  | ControllingDoor (action : DoorAction) (door_state : DoorState) (start_time : Instant)
  | Idle (door_state : DoorState) (message : String) (message_time : Instant)
      (last_classification : Instant)
  | UnlockedGracePeriod (door_state : DoorState) (countdown_start : Instant)
  | LockingGracePeriod (door_state : DoorState) (countdown_start : Instant)
      (last_detection : Instant)
  | Error (message : String) (door_state : DoorState)
  deriving DecidableEq, Repr

/-- Decidable equality for `Except` results (success/error payloads). -/
instance exceptDecEq {ε α : Type} [DecidableEq ε] [DecidableEq α] :
    DecidableEq (Except ε α) := fun x y =>
  match x, y with
  | Except.ok a, Except.ok b =>
    if h : a = b then isTrue (by rw [h]) else isFalse (by intro hc; cases hc; exact h rfl)
  | Except.ok _, Except.error _ => isFalse (by intro hc; cases hc)
  | Except.error _, Except.ok _ => isFalse (by intro hc; cases hc)
  | Except.error a, Except.error b =>
    if h : a = b then isTrue (by rw [h]) else isFalse (by intro hc; cases hc; exact h rfl)

/-- `core.rs`: `Event` (error payloads as opaque strings). -/
inductive Event where
  | Tick (now : Instant)
  | CameraEvent (e : DeviceCameraEvent)
  | CameraStartDone (r : Except String Unit)
  | DoorEvent (e : DeviceDoorEvent)
  | DoorLockDone (r : Except String Unit)
  | DoorUnlockDone (r : Except String Unit)
  | FramesClassifyDone (r : Except String (List (List Classification)))
  | FramesCaptureDone (r : Except String (List Frame))
  deriving DecidableEq, Repr

/-- `core.rs`: `Effect`. -/
inductive Effect where
  | StartCamera
  | LockDoor
  | UnlockDoor
  | CaptureFrames
  | ClassifyFrames (frames : List Frame)
  | SubscribeToCameraEvents
  | SubscribeToDoorEvents
  | SubscribeTick
  | Notify (message : String)
  deriving DecidableEq, Repr

/-- `matches!(state, State::UnlockedGracePeriod { .. })` in `core.rs` line 476. -/
def State.isUnlockedGracePeriod : State → Bool
  | State.UnlockedGracePeriod _ _ => true
  | _ => false

/-- `core.rs`: `init()`. -/
def init : State × List Effect :=
  (State.DevicesInitializing DeviceStates.default,
    [Effect.SubscribeToDoorEvents, Effect.SubscribeToCameraEvents, Effect.SubscribeTick])

/-- `core.rs` lines 139-486: `transition(config, state, event)`.
`rtNow` is the value returned by each `Instant::now()` call in the step. -/
def transition (config : Config) (rtNow : Instant) (state : State) (event : Event) :
    State × List Effect :=
  match state, event with
  -- Device initialization
  | State.DevicesInitializing device_states,
    Event.CameraEvent DeviceCameraEvent.Connected =>
    (State.DevicesInitializing
        { camera := CameraState.Connected rtNow, door := device_states.door },
      [Effect.StartCamera])
  | State.DevicesInitializing device_states, Event.CameraStartDone (Except.ok ()) =>
    if device_states.door = DoorState.Initialized then
      (State.AnalyzingFramesCapture DoorState.Locked, [Effect.CaptureFrames])
    else
      (State.DevicesInitializing
          { camera := CameraState.Started, door := device_states.door },
        [])
  | State.DevicesInitializing device_states,
    Event.DoorEvent DeviceDoorEvent.Connected =>
    (State.DevicesInitializing
        { camera := device_states.camera, door := DoorState.Connected rtNow },
      [Effect.LockDoor])
  | State.DevicesInitializing device_states, Event.DoorLockDone (Except.ok ()) =>
    if device_states.camera = CameraState.Started then
      (State.AnalyzingFramesCapture DoorState.Locked, [Effect.CaptureFrames])
    else
      (State.DevicesInitializing
          { camera := device_states.camera, door := DoorState.Initialized },
        [])
  -- Main operation flow
  | State.AnalyzingFramesCapture door_state, Event.FramesCaptureDone (Except.ok frames) =>
    if frames.isEmpty then
      (State.AnalyzingFramesCapture door_state, [Effect.CaptureFrames])
    else
      (State.AnalyzingFramesClassifying door_state frames,
        [Effect.ClassifyFrames frames])
  | State.AnalyzingFramesClassifying door_state _,
    Event.FramesClassifyDone (Except.ok classifications) =>
    let dog_detected := dogDetected config classifications
    let cat_detected := catDetected config classifications
    match dog_detected, cat_detected, door_state with
    | true, false, _ =>
      (State.ControllingDoor DoorAction.Unlocking door_state rtNow,
        [Effect.UnlockDoor, Effect.Notify "Dog detected - unlocking door"])
    | false, true, DoorState.Unlocked =>
      (State.LockingGracePeriod door_state rtNow rtNow,
        [Effect.Notify "Cat detected - preparing to lock"])
    | false, true, _ =>
      (State.Idle door_state "Cat detected - door remains locked" rtNow rtNow, [])
    | _, _, _ =>
      (State.Idle door_state "No relevant animals detected" rtNow rtNow, [])
  -- Grace period handling
  | State.LockingGracePeriod door_state countdown_start last_detection, Event.Tick now =>
    let grace_elapsed := now - countdown_start
    let since_last_detection := now - last_detection
    if config.locking_grace_period ≤ grace_elapsed then
      (State.ControllingDoor DoorAction.Locking door_state rtNow, [Effect.LockDoor])
    else if 5 ≤ since_last_detection then
      -- If no new detections for 5 seconds, check again
      (State.AnalyzingFramesCapture door_state, [Effect.CaptureFrames])
    else
      (State.LockingGracePeriod door_state countdown_start last_detection, [])
  | State.UnlockedGracePeriod door_state countdown_start, Event.Tick now =>
    if config.unlock_grace_period ≤ now - countdown_start then
      (State.AnalyzingFramesCapture door_state, [Effect.CaptureFrames])
    else
      (State.UnlockedGracePeriod door_state countdown_start, [])
  -- Door control results
  | State.ControllingDoor _ _ _, Event.DoorLockDone (Except.ok _) =>
    (State.Idle DoorState.Locked "Door locked successfully" rtNow rtNow, [])
  | State.ControllingDoor _ _ _, Event.DoorUnlockDone (Except.ok _) =>
    (State.UnlockedGracePeriod DoorState.Unlocked rtNow, [])
  | State.ControllingDoor _ door_state _, Event.DoorLockDone (Except.error e) =>
    (State.Error ("Failed to lock door: " ++ e) door_state,
      [Effect.Notify "Door lock failed!"])
  | State.ControllingDoor _ door_state _, Event.DoorUnlockDone (Except.error e) =>
    (State.Error ("Failed to unlock door: " ++ e) door_state,
      [Effect.Notify "Door unlock failed!"])
  -- Error recovery
  | State.Error _ _, Event.DoorEvent DeviceDoorEvent.Connected =>
    (State.DevicesInitializing
        { camera := CameraState.Disconnected, door := DoorState.Connected rtNow },
      [Effect.LockDoor])
  | State.Error _ door_state, Event.CameraEvent DeviceCameraEvent.Connected =>
    (State.DevicesInitializing
        { camera := CameraState.Connected rtNow, door := door_state },
      [Effect.StartCamera])
  -- Periodic checks
  | State.Idle door_state message message_time last_classification, Event.Tick now =>
    if config.analyze_rate ≤ now - last_classification then
      (State.AnalyzingFramesCapture door_state, [Effect.CaptureFrames])
    else
      (State.Idle door_state message message_time last_classification, [])
  -- Device disconnection
  | _, Event.CameraEvent DeviceCameraEvent.Disconnected =>
    (State.DevicesInitializing DeviceStates.default, [])
  | s, Event.DoorEvent DeviceDoorEvent.Disconnected =>
    (State.DevicesInitializing DeviceStates.default,
      if s.isUnlockedGracePeriod then [Effect.LockDoor] else [])
  -- Default case - no state change
  | s, _ => (s, [])

/-- The (state, event) shapes matched by a specific arm of
`core.rs`'s `transition` — every arm of the `match` at lines 140-481
except the final `(state, _) => (state, vec![])` default (the arm
patterns carry no guards; the `if` tests live inside the arm bodies). -/
def handled : State → Event → Bool := fun s e =>
  match s, e with
  | State.DevicesInitializing _, Event.CameraEvent DeviceCameraEvent.Connected => true
  | State.DevicesInitializing _, Event.CameraStartDone (Except.ok _) => true
  | State.DevicesInitializing _, Event.DoorEvent DeviceDoorEvent.Connected => true
  | State.DevicesInitializing _, Event.DoorLockDone (Except.ok _) => true
  | State.AnalyzingFramesCapture _, Event.FramesCaptureDone (Except.ok _) => true
  | State.AnalyzingFramesClassifying _ _, Event.FramesClassifyDone (Except.ok _) => true
  | State.LockingGracePeriod _ _ _, Event.Tick _ => true
  | State.UnlockedGracePeriod _ _, Event.Tick _ => true
  | State.ControllingDoor _ _ _, Event.DoorLockDone _ => true
  | State.ControllingDoor _ _ _, Event.DoorUnlockDone _ => true
  | State.Error _ _, Event.DoorEvent DeviceDoorEvent.Connected => true
  | State.Error _ _, Event.CameraEvent DeviceCameraEvent.Connected => true
  | State.Idle _ _ _ _, Event.Tick _ => true
  | _, Event.CameraEvent DeviceCameraEvent.Disconnected => true
  | _, Event.DoorEvent DeviceDoorEvent.Disconnected => true
  | _, _ => false

end Core

namespace CoreNew

/-- `core_new.rs`: `StateConnecting`. -/
inductive StateConnecting where
  | Connecting
  | OnlyCameraConnecting
  | OnlyDoorConnecting
  deriving DecidableEq, Repr

/-- `core_new.rs`: `StateCameraFrames` (the `Idle` default construction with
`Instant::now()` lives in `impl Default`, which `transition` never calls). -/
inductive StateCameraFrames where
  | Idle (start_time : Instant)
  | Capturing
  | Classifying (frames : List Frame)
  deriving DecidableEq, Repr

/-- `core_new.rs`: `StateCamera`. -/
structure StateCamera where
  frames : StateCameraFrames
  classifications : List (List Classification)
  deriving DecidableEq, Repr

/-- `core_new.rs`: `StateDoor`. -/
inductive StateDoor where
  | LockingGracePeriod (start_time : Instant) (countdown_start : Instant)
  | Locking
  | Locked
  | UnlockingGracePeriod (start_time : Instant) (countdown_start : Instant)
  | Unlocking
  | Unlocked
  deriving DecidableEq, Repr

/-- `core_new.rs`: `StateConnected`. -/
structure StateConnected where
  camera : StateCamera
  door : StateDoor
  deriving DecidableEq, Repr

/-- `core_new.rs`: `State`. -/
inductive State where
  | Connecting (s : StateConnecting)
  | Connected (s : StateConnected)
  deriving DecidableEq, Repr

/-- `core_new.rs`: `Event` (same alphabet as `core.rs`;
`FramesCaptureDone` carries `Vec<Frame>`). -/
inductive Event where
  | Tick (now : Instant)
  | CameraEvent (e : DeviceCameraEvent)
  | CameraStartDone (r : Except String Unit)
  | DoorEvent (e : DeviceDoorEvent)
  | DoorLockDone (r : Except String Unit)
  | DoorUnlockDone (r : Except String Unit)
  | FramesClassifyDone (r : Except String (List (List Classification)))
  | FramesCaptureDone (r : Except String (List Frame))
  deriving DecidableEq, Repr

/-- `core_new.rs`: `Effect` (no `Notify` variant). -/
inductive Effect where
  | StartCamera
  | LockDoor
  | UnlockDoor
  | CaptureFrames
  | ClassifyFrames (frames : List Frame)
  | SubscribeToCameraEvents
  | SubscribeToDoorEvents
  | SubscribeTick
  deriving DecidableEq, Repr

/-- Whether a model is in the `Connected` (ready/operating) top-level phase. -/
def State.isConnected : State → Bool
  | State.Connected _ => true
  | State.Connecting _ => false

/-- `core_new.rs`: `init()` (`State::default()` is
`Connecting(StateConnecting::Connecting)`). -/
def init : State × List Effect :=
  (State.Connecting StateConnecting.Connecting,
    [Effect.SubscribeToDoorEvents, Effect.SubscribeToCameraEvents, Effect.SubscribeTick])

/-- `core_new.rs` lines 158-217: `transition_connecting`. -/
def transition_connecting (_config : Config) (state : StateConnecting) (event : Event) :
    State × List Effect :=
  match state, event with
  -- Initial connection of both devices
  | StateConnecting.Connecting, Event.CameraEvent DeviceCameraEvent.Connected =>
    (State.Connecting StateConnecting.OnlyDoorConnecting, [Effect.StartCamera])
  | StateConnecting.Connecting, Event.DoorEvent DeviceDoorEvent.Connected =>
    (State.Connecting StateConnecting.OnlyCameraConnecting, [])
  -- Camera connection handling
  | StateConnecting.OnlyDoorConnecting, Event.CameraStartDone (Except.ok ()) =>
    (State.Connected
        { camera := { frames := StateCameraFrames.Capturing, classifications := [] }
          door := StateDoor.Unlocked },
      [])
  -- Door connection handling
  | StateConnecting.OnlyCameraConnecting, Event.DoorEvent DeviceDoorEvent.Connected =>
    (State.Connected
        { camera := { frames := StateCameraFrames.Capturing, classifications := [] }
          door := StateDoor.Unlocked },
      [])
  -- Error cases
  | StateConnecting.OnlyDoorConnecting, Event.CameraStartDone (Except.error _) =>
    (State.Connecting StateConnecting.OnlyDoorConnecting, [Effect.StartCamera]) -- Retry
  -- Disconnection handling
  | _, Event.CameraEvent DeviceCameraEvent.Disconnected =>
    (State.Connecting StateConnecting.Connecting, [])
  | _, Event.DoorEvent DeviceDoorEvent.Disconnected =>
    (State.Connecting StateConnecting.Connecting, [])
  -- Default case - no state change
  | s, _ => (State.Connecting s, [])

/-- `core_new.rs` lines 242-263: `transition_door`. -/
def transition_door (current : StateDoor) (event : Event) : StateDoor × List Effect :=
  match current, event with
  | StateDoor.Locking, Event.DoorLockDone (Except.ok _) => (StateDoor.Locked, [])
  | StateDoor.Unlocking, Event.DoorUnlockDone (Except.ok _) => (StateDoor.Unlocked, [])
  | StateDoor.Locking, Event.DoorLockDone (Except.error _) =>
    (StateDoor.Locked, [Effect.LockDoor]) -- Retry
  | StateDoor.Unlocking, Event.DoorUnlockDone (Except.error _) =>
    (StateDoor.Locked, [Effect.UnlockDoor]) -- Retry
  -- No change for other events
  | _, _ => (current, [])

/-- `core_new.rs` lines 265-404: `transition_frame`. -/
def transition_frame (config : Config) (current : StateCamera) (event : Event) :
    StateCamera × List Effect :=
  match current, event with
  -- Frame capture transitions
  | { frames := StateCameraFrames.Capturing, .. },
    Event.FramesCaptureDone (Except.ok frames) =>
    if frames.isEmpty then
      ({ frames := StateCameraFrames.Capturing, classifications := [] },
        [Effect.CaptureFrames])
    else
      ({ frames := StateCameraFrames.Classifying frames, classifications := [] },
        [Effect.ClassifyFrames frames])
  -- Frame classification transitions
  | { frames := StateCameraFrames.Classifying _, .. },
    Event.FramesClassifyDone (Except.ok classifications) =>
    let dog_detected := dogDetected config classifications
    let cat_detected := catDetected config classifications
    -- Note: Door effects are handled separately now
    if dog_detected && !cat_detected then
      ({ frames := StateCameraFrames.Capturing, classifications := [] },
        [Effect.UnlockDoor])
    else if cat_detected then
      ({ frames := StateCameraFrames.Capturing, classifications := [] },
        [Effect.LockDoor])
    else
      ({ frames := StateCameraFrames.Capturing, classifications := [] },
        [Effect.CaptureFrames])
  -- Error cases
  | { frames := StateCameraFrames.Capturing, classifications := classifications },
    Event.FramesCaptureDone (Except.error _) =>
    ({ frames := StateCameraFrames.Capturing, classifications := classifications },
      [Effect.CaptureFrames]) -- Retry
  | { frames := StateCameraFrames.Classifying _, classifications := classifications },
    Event.FramesClassifyDone (Except.error _) =>
    ({ frames := StateCameraFrames.Capturing, classifications := classifications },
      [Effect.CaptureFrames]) -- Retry with new frames
  -- Periodic checks
  | { frames := StateCameraFrames.Capturing, classifications := classifications },
    Event.Tick _ =>
    ({ frames := StateCameraFrames.Capturing, classifications := classifications },
      [Effect.CaptureFrames])
  -- No change for other events
  | c, _ => (c, [])

/-- `core_new.rs` lines 219-240: `transition_connected` (runs the door and
frame sub-machines independently and concatenates door effects before frame
effects). -/
def transition_connected (config : Config) (state : StateConnected) (event : Event) :
    State × List Effect :=
  let door_result := transition_door state.door event
  let frame_result := transition_frame config state.camera event
  (State.Connected { camera := frame_result.1, door := door_result.1 },
    door_result.2 ++ frame_result.2)

/-- `core_new.rs` lines 141-156: `transition`. -/
def transition (config : Config) (state : State) (event : Event) : State × List Effect :=
  match state, event with
  | _, Event.CameraEvent DeviceCameraEvent.Disconnected =>
    (State.Connecting StateConnecting.Connecting, [])
  | _, Event.DoorEvent DeviceDoorEvent.Disconnected =>
    (State.Connecting StateConnecting.Connecting, [])
  | State.Connecting child, event => transition_connecting config child event
  | State.Connected child, event => transition_connected config child event

end CoreNew

/-- A concrete configuration for counterexamples and witnesses: the default
config with threshold 0 entries (kernel-evaluable rationals) for the same
"cat"/"dog" labels. -/
def testConfig : Config :=
  { Config.default with
    lock_list := [{ label := "cat", min_confidence := 0 }]
    unlock_list := [{ label := "dog", min_confidence := 0 }] }

/-!
Claim theorems.
-/

/-- C1 (counterexample): `core.rs`'s `transition` reads the wall clock.
At the concrete input (`DevicesInitializing{default}`,
`CameraEvent(Connected)`), two evaluations whose `Instant::now()` readings
differ (0 versus 1) produce different `(model', effects)` pairs, so the
result is not determined by `(config, model, msg)` alone and a time value
other than a `Tick(now)` payload influences it. -/
theorem c1_counterexample :
    Core.transition Config.default 0
        (Core.State.DevicesInitializing Core.DeviceStates.default)
        (Core.Event.CameraEvent DeviceCameraEvent.Connected)
      ≠ Core.transition Config.default 1
        (Core.State.DevicesInitializing Core.DeviceStates.default)
        (Core.Event.CameraEvent DeviceCameraEvent.Connected) := by
  decide

/-- C1 (amended): `core_new.rs`'s `transition` is a pure function with no
clock access, hence deterministic; `core.rs`'s `transition` stores
`Instant::now()` readings in the model, so only its effect list — not the
resulting model — is independent of the wall-clock reading: for every
`(config, model, msg)` and any two clock readings, the emitted effects
coincide. -/
theorem c1_effects_independent_of_clock (config : Config) (n₁ n₂ : Instant)
    (s : Core.State) (e : Core.Event) :
    (Core.transition config n₁ s e).2 = (Core.transition config n₂ s e).2 := by
  cases s <;> cases e <;> try rfl
  all_goals try (rename_i x; cases x <;> try rfl)
  case AnalyzingFramesClassifying.FramesClassifyDone.ok ds fs cls =>
    simp only [Core.transition]
    cases h1 : dogDetected config cls <;> cases h2 : catDetected config cls <;>
      cases ds <;> simp [h1, h2]
  all_goals (simp only [Core.transition]; split_ifs <;> rfl)

/-- C3 (counterexample): a camera disconnect received while the door is
`Unlocked` (here in `Idle`) yields `DevicesInitializing` with both device
states `Disconnected` and an empty effect list — the step neither models the
door as locked nor emits a `LockDoor` effect. -/
theorem c3_counterexample :
    (Core.transition Config.default 0
        (Core.State.Idle Core.DoorState.Unlocked "" 0 0)
        (Core.Event.CameraEvent DeviceCameraEvent.Disconnected)).2 = [] ∧
    (Core.transition Config.default 0
        (Core.State.Idle Core.DoorState.Unlocked "" 0 0)
        (Core.Event.CameraEvent DeviceCameraEvent.Disconnected)).1
      = Core.State.DevicesInitializing
          { camera := Core.CameraState.Disconnected, door := Core.DoorState.Disconnected } :=
  ⟨rfl, rfl⟩

/-- C3 (amended): on any disconnect the model resets to the initial
connecting state with no effects — except that `core.rs` emits `LockDoor`
exactly when a door disconnect arrives during `UnlockedGracePeriod`;
`core_new.rs` emits nothing on any disconnect. -/
theorem c3_disconnect_behaviour (config : Config) (n : Instant) (s : Core.State)
    (s' : CoreNew.State) :
    Core.transition config n s (Core.Event.CameraEvent DeviceCameraEvent.Disconnected)
      = (Core.State.DevicesInitializing Core.DeviceStates.default, []) ∧
    Core.transition config n s (Core.Event.DoorEvent DeviceDoorEvent.Disconnected)
      = (Core.State.DevicesInitializing Core.DeviceStates.default,
          if s.isUnlockedGracePeriod then [Core.Effect.LockDoor] else []) ∧
    CoreNew.transition config s' (CoreNew.Event.CameraEvent DeviceCameraEvent.Disconnected)
      = (CoreNew.State.Connecting CoreNew.StateConnecting.Connecting, []) ∧
    CoreNew.transition config s' (CoreNew.Event.DoorEvent DeviceDoorEvent.Disconnected)
      = (CoreNew.State.Connecting CoreNew.StateConnecting.Connecting, []) := by
  refine ⟨?_, ?_, ?_, ?_⟩
  · cases s <;> rfl
  · cases s <;> rfl
  · cases s' <;> rfl
  · cases s' <;> rfl

/-- C5 (counterexample): from a `Connected` (ready) model, a camera
disconnect yields `Connecting(StateConnecting::Connecting)` — both
sub-connections reset — not the claimed `Connecting` with the door
sub-state preserved as connected (which would be `OnlyCameraConnecting`). -/
theorem c5_counterexample :
    CoreNew.transition Config.default
        (CoreNew.State.Connected
          { camera := { frames := CoreNew.StateCameraFrames.Capturing, classifications := [] }
            door := CoreNew.StateDoor.Unlocked })
        (CoreNew.Event.CameraEvent DeviceCameraEvent.Disconnected)
      = (CoreNew.State.Connecting CoreNew.StateConnecting.Connecting, []) ∧
    CoreNew.StateConnecting.Connecting ≠ CoreNew.StateConnecting.OnlyCameraConnecting :=
  ⟨rfl, by decide⟩

/-- C5 (amended): from every `Connected` model, `CameraEvent(Disconnected)`
and `DoorEvent(Disconnected)` both yield `Connecting(Connecting)` — the
opposite device's connection is not preserved — and no effects are issued. -/
theorem c5_ready_disconnect (config : Config) (s : CoreNew.StateConnected) :
    CoreNew.transition config (CoreNew.State.Connected s)
        (CoreNew.Event.CameraEvent DeviceCameraEvent.Disconnected)
      = (CoreNew.State.Connecting CoreNew.StateConnecting.Connecting, []) ∧
    CoreNew.transition config (CoreNew.State.Connected s)
        (CoreNew.Event.DoorEvent DeviceDoorEvent.Disconnected)
      = (CoreNew.State.Connecting CoreNew.StateConnecting.Connecting, []) :=
  ⟨rfl, rfl⟩

/-- C7 (counterexample): in `core_new.rs`, a `DoorLockDone(Err)` received
while `Locking` does not keep the pending state and does not wait for the
next tick: the door model jumps to `Locked` and the `LockDoor` effect is
re-issued immediately in the same step. -/
theorem c7_counterexample :
    CoreNew.transition Config.default
        (CoreNew.State.Connected
          { camera := { frames := CoreNew.StateCameraFrames.Capturing, classifications := [] }
            door := CoreNew.StateDoor.Locking })
        (CoreNew.Event.DoorLockDone (Except.error "lock failed"))
      = (CoreNew.State.Connected
          { camera := { frames := CoreNew.StateCameraFrames.Capturing, classifications := [] }
            door := CoreNew.StateDoor.Locked },
          [CoreNew.Effect.LockDoor]) ∧
    CoreNew.StateDoor.Locked ≠ CoreNew.StateDoor.Locking :=
  ⟨rfl, by decide⟩

/-- C7 (amended): on a lock/unlock completion error, `core_new.rs` moves the
door model to `Locked` and re-issues the corresponding effect immediately in
the same step (no tick, no debounce ceiling); `core.rs` instead moves
`ControllingDoor` to the `Error` state with a `Notify` effect and no retry. -/
theorem c7_completion_error (config : Config) (cam : CoreNew.StateCamera) (msg : String)
    (a : Core.DoorAction) (ds : Core.DoorState) (t n : Instant) (m2 : String) :
    CoreNew.transition config
        (CoreNew.State.Connected { camera := cam, door := CoreNew.StateDoor.Locking })
        (CoreNew.Event.DoorLockDone (Except.error msg))
      = (CoreNew.State.Connected { camera := cam, door := CoreNew.StateDoor.Locked },
          [CoreNew.Effect.LockDoor]) ∧
    CoreNew.transition config
        (CoreNew.State.Connected { camera := cam, door := CoreNew.StateDoor.Unlocking })
        (CoreNew.Event.DoorUnlockDone (Except.error msg))
      = (CoreNew.State.Connected { camera := cam, door := CoreNew.StateDoor.Locked },
          [CoreNew.Effect.UnlockDoor]) ∧
    Core.transition config n (Core.State.ControllingDoor a ds t)
        (Core.Event.DoorLockDone (Except.error m2))
      = (Core.State.Error ("Failed to lock door: " ++ m2) ds,
          [Core.Effect.Notify "Door lock failed!"]) ∧
    Core.transition config n (Core.State.ControllingDoor a ds t)
        (Core.Event.DoorUnlockDone (Except.error m2))
      = (Core.State.Error ("Failed to unlock door: " ++ m2) ds,
          [Core.Effect.Notify "Door unlock failed!"]) := by
  obtain ⟨fr, cl⟩ := cam
  refine ⟨?_, ?_, rfl, rfl⟩ <;> cases fr <;> rfl

/-- C9 (counterexample): an empty `FramesCaptureDone(Ok([]))` in the
capturing state is not a no-op: the camera stays in `Capturing` (it does not
return to `Idle`) and a `CaptureFrames` effect is re-issued immediately in
the same step rather than waiting for a later `Tick`. -/
theorem c9_counterexample :
    CoreNew.transition Config.default
        (CoreNew.State.Connected
          { camera := { frames := CoreNew.StateCameraFrames.Capturing, classifications := [] }
            door := CoreNew.StateDoor.Locked })
        (CoreNew.Event.FramesCaptureDone (Except.ok []))
      = (CoreNew.State.Connected
          { camera := { frames := CoreNew.StateCameraFrames.Capturing, classifications := [] }
            door := CoreNew.StateDoor.Locked },
          [CoreNew.Effect.CaptureFrames]) :=
  rfl

/-- C9 (amended): an empty capture immediately retries: in `core_new.rs`
the camera sub-state stays `Capturing` (classifications cleared) and
`CaptureFrames` is emitted in the same step; in `core.rs` the state stays
`AnalyzingFramesCapture` and `CaptureFrames` is likewise emitted at once. -/
theorem c9_empty_capture (config : Config) (cl : List (List Classification))
    (d : CoreNew.StateDoor) (n : Instant) (ds : Core.DoorState) :
    CoreNew.transition config
        (CoreNew.State.Connected
          { camera := { frames := CoreNew.StateCameraFrames.Capturing, classifications := cl }
            door := d })
        (CoreNew.Event.FramesCaptureDone (Except.ok []))
      = (CoreNew.State.Connected
          { camera := { frames := CoreNew.StateCameraFrames.Capturing, classifications := [] }
            door := d },
          [CoreNew.Effect.CaptureFrames]) ∧
    Core.transition config n (Core.State.AnalyzingFramesCapture ds)
        (Core.Event.FramesCaptureDone (Except.ok []))
      = (Core.State.AnalyzingFramesCapture ds, [Core.Effect.CaptureFrames]) := by
  refine ⟨?_, rfl⟩
  cases d <;> rfl

/-- C2 (counterexample): in `core.rs`, with `testConfig` and a frame whose
classifications match both the unlock list ("dog") and the lock list
("cat"), `cat_detected` holds yet the transition takes the
`"No relevant animals detected"` default branch: the door state stays
`Unlocked` and is not driven toward locked, so the cat/lock branch is not
taken when dog is also detected. -/
theorem c2_counterexample :
    catDetected testConfig [[⟨1, "dog"⟩, ⟨1, "cat"⟩]] = true ∧
    Core.transition testConfig 0
        (Core.State.AnalyzingFramesClassifying Core.DoorState.Unlocked [[0]])
        (Core.Event.FramesClassifyDone (Except.ok [[⟨1, "dog"⟩, ⟨1, "cat"⟩]]))
      = (Core.State.Idle Core.DoorState.Unlocked "No relevant animals detected" 0 0, []) := by
  constructor
  · decide
  · decide

/-- C2 (amended): in `core_new.rs`'s classify handling, cat always wins:
whenever `cat_detected` holds, the step produces exactly a `LockDoor` effect
(never `UnlockDoor`), regardless of `dog_detected`; in `core.rs`,
`cat_detected` still guarantees that no `UnlockDoor` effect is emitted, but
when dog is also detected the step takes the no-relevant-animals branch and
leaves the door state unchanged rather than the cat branch. -/
theorem c2_cat_forces_lock_branch (config : Config) (cls : List (List Classification))
    (cam0 : List (List Classification)) (fs : List Frame) (d : CoreNew.StateDoor)
    (ds : Core.DoorState) (n : Instant)
    (hcat : catDetected config cls = true) :
    CoreNew.transition config
        (CoreNew.State.Connected
          { camera := { frames := CoreNew.StateCameraFrames.Classifying fs
                        classifications := cam0 }
            door := d })
        (CoreNew.Event.FramesClassifyDone (Except.ok cls))
      = (CoreNew.State.Connected
          { camera := { frames := CoreNew.StateCameraFrames.Capturing, classifications := [] }
            door := d },
          [CoreNew.Effect.LockDoor]) ∧
    Core.Effect.UnlockDoor ∉
      (Core.transition config n (Core.State.AnalyzingFramesClassifying ds fs)
        (Core.Event.FramesClassifyDone (Except.ok cls))).2 := by
  constructor
  · simp only [CoreNew.transition, CoreNew.transition_connected, CoreNew.transition_door,
      CoreNew.transition_frame]
    cases d <;> simp [hcat]
  · simp only [Core.transition]
    cases h1 : dogDetected config cls <;> cases ds <;> simp [hcat, h1]

/-- C2 (witness): the amended theorem applied at a concrete input where both
a dog and a cat are detected. -/
theorem c2_witness :
    catDetected testConfig [[⟨1, "dog"⟩, ⟨1, "cat"⟩]] = true ∧
    (CoreNew.transition testConfig
        (CoreNew.State.Connected
          { camera := { frames := CoreNew.StateCameraFrames.Classifying [[0]]
                        classifications := [] }
            door := CoreNew.StateDoor.Unlocked })
        (CoreNew.Event.FramesClassifyDone (Except.ok [[⟨1, "dog"⟩, ⟨1, "cat"⟩]]))
      = (CoreNew.State.Connected
          { camera := { frames := CoreNew.StateCameraFrames.Capturing, classifications := [] }
            door := CoreNew.StateDoor.Unlocked },
          [CoreNew.Effect.LockDoor]) ∧
    Core.Effect.UnlockDoor ∉
      (Core.transition testConfig 0
        (Core.State.AnalyzingFramesClassifying Core.DoorState.Unlocked [[0]])
        (Core.Event.FramesClassifyDone (Except.ok [[⟨1, "dog"⟩, ⟨1, "cat"⟩]]))).2) :=
  ⟨by decide, c2_cat_forces_lock_branch testConfig [[⟨1, "dog"⟩, ⟨1, "cat"⟩]] [] [[0]]
    CoreNew.StateDoor.Unlocked Core.DoorState.Unlocked 0 (by decide)⟩

/-- C4 (counterexample): in `core_new.rs`, the camera sub-machine's handling
of a `FramesClassifyDone` detection emits `UnlockDoor` directly, in the same
step, in response to a message that is not a `Tick`. -/
theorem c4_counterexample :
    CoreNew.transition testConfig
        (CoreNew.State.Connected
          { camera := { frames := CoreNew.StateCameraFrames.Classifying [[0]]
                        classifications := [] }
            door := CoreNew.StateDoor.Locked })
        (CoreNew.Event.FramesClassifyDone (Except.ok [[⟨1, "dog"⟩]]))
      = (CoreNew.State.Connected
          { camera := { frames := CoreNew.StateCameraFrames.Capturing, classifications := [] }
            door := CoreNew.StateDoor.Locked },
          [CoreNew.Effect.UnlockDoor]) := by
  decide

/-- C4 (amended): in `core_new.rs` it is `Tick` that never produces a lock or
unlock command: for every model, a `Tick` step's effect list is either empty
or exactly `[CaptureFrames]`; `LockDoor`/`UnlockDoor` effects instead
originate from the camera sub-machine's `FramesClassifyDone` handling (see
the counterexample) and from the door sub-machine's completion-error
retries. -/
theorem c4_tick_emits_no_lock_effects (config : Config) (s : CoreNew.State) (now : Instant) :
    (CoreNew.transition config s (CoreNew.Event.Tick now)).2 = [] ∨
    (CoreNew.transition config s (CoreNew.Event.Tick now)).2 = [CoreNew.Effect.CaptureFrames] := by
  cases s with
  | Connecting sc => cases sc <;> exact Or.inl rfl
  | Connected sc =>
    obtain ⟨⟨fr, cl⟩, d⟩ := sc
    cases fr <;> cases d <;> first | exact Or.inl rfl | exact Or.inr rfl

/-- C6 (counterexample): entering the operating phase from
`OnlyCameraConnecting` via `DoorEvent(Connected)` produces a model whose
camera sub-state is `Capturing` (not `Idle`) and whose door sub-state is
`Unlocked` (not `Locked`). -/
theorem c6_counterexample :
    CoreNew.transition Config.default
        (CoreNew.State.Connecting CoreNew.StateConnecting.OnlyCameraConnecting)
        (CoreNew.Event.DoorEvent DeviceDoorEvent.Connected)
      = (CoreNew.State.Connected
          { camera := { frames := CoreNew.StateCameraFrames.Capturing, classifications := [] }
            door := CoreNew.StateDoor.Unlocked }, []) ∧
    CoreNew.StateDoor.Unlocked ≠ CoreNew.StateDoor.Locked :=
  ⟨rfl, by decide⟩

/-- C6 (amended): from a `Connecting` model, the `Connected` phase is entered
by exactly two transitions — `OnlyDoorConnecting` on `CameraStartDone(Ok)`
and `OnlyCameraConnecting` on `DoorEvent(Connected)` (so not by observing
both device connections) — and the freshly entered model is always
`camera = Capturing` with empty classifications and `door = Unlocked`, with
no effects emitted. -/
theorem c6_connected_entry (config : Config) (sc : CoreNew.StateConnecting)
    (e : CoreNew.Event) :
    ((CoreNew.transition config (CoreNew.State.Connecting sc) e).1.isConnected = true ↔
      (sc = CoreNew.StateConnecting.OnlyDoorConnecting ∧
        e = CoreNew.Event.CameraStartDone (Except.ok ())) ∨
      (sc = CoreNew.StateConnecting.OnlyCameraConnecting ∧
        e = CoreNew.Event.DoorEvent DeviceDoorEvent.Connected)) ∧
    ((CoreNew.transition config (CoreNew.State.Connecting sc) e).1.isConnected = true →
      CoreNew.transition config (CoreNew.State.Connecting sc) e
        = (CoreNew.State.Connected
            { camera := { frames := CoreNew.StateCameraFrames.Capturing, classifications := [] }
              door := CoreNew.StateDoor.Unlocked }, [])) := by
  cases sc <;> cases e <;>
    (rename_i x; cases x <;> simp [CoreNew.transition, CoreNew.transition_connecting,
      CoreNew.State.isConnected])

/-- C6 (witness): the amended theorem applied at the concrete
`OnlyDoorConnecting` / `CameraStartDone(Ok)` entry. -/
theorem c6_witness :
    CoreNew.transition Config.default
        (CoreNew.State.Connecting CoreNew.StateConnecting.OnlyDoorConnecting)
        (CoreNew.Event.CameraStartDone (Except.ok ()))
      = (CoreNew.State.Connected
          { camera := { frames := CoreNew.StateCameraFrames.Capturing, classifications := [] }
            door := CoreNew.StateDoor.Unlocked }, []) :=
  (c6_connected_entry Config.default CoreNew.StateConnecting.OnlyDoorConnecting
    (CoreNew.Event.CameraStartDone (Except.ok ()))).2 (by decide)

/-- C8: `core.rs`'s `transition` is a total match over `(state, event)` whose
final arm is `(state, _) => (state, vec![])`; `Core.handled` enumerates the
shapes matched by the specific arms, and every combination outside them is
an identity transition with an empty effect list. -/
theorem c8_unmatched_is_identity (config : Config) (n : Instant) (s : Core.State)
    (e : Core.Event) (h : Core.handled s e = false) :
    Core.transition config n s e = (s, []) := by
  cases s <;> cases e <;> try rfl
  all_goals (rename_i x; cases x <;> first | rfl | simp_all [Core.handled])

/-- C8 (witness): the theorem applied at the concrete unmatched combination
(`Error` state, `Tick` message). -/
theorem c8_witness :
    Core.handled (Core.State.Error "" Core.DoorState.Locked) (Core.Event.Tick 0) = false ∧
    Core.transition Config.default 0 (Core.State.Error "" Core.DoorState.Locked)
        (Core.Event.Tick 0)
      = (Core.State.Error "" Core.DoorState.Locked, []) :=
  ⟨by decide, c8_unmatched_is_identity Config.default 0 _ _ (by decide)⟩

/-- Helper for C10: the door sub-machine of `core_new.rs` never emits a
`ClassifyFrames` effect. -/
theorem transition_door_no_classify (d : CoreNew.StateDoor) (e : CoreNew.Event)
    (fs : List Frame) :
    CoreNew.Effect.ClassifyFrames fs ∉ (CoreNew.transition_door d e).2 := by
  cases d <;> cases e <;>
    (try (rename_i x; cases x)) <;>
    simp [CoreNew.transition_door]

/-- Helper for C10: any `ClassifyFrames` effect emitted by the camera
sub-machine of `core_new.rs` carries a non-empty frame list. -/
theorem transition_frame_classify_nonempty (config : Config) (cam : CoreNew.StateCamera)
    (e : CoreNew.Event) (fs : List Frame)
    (h : CoreNew.Effect.ClassifyFrames fs ∈ (CoreNew.transition_frame config cam e).2) :
    fs ≠ [] := by
  obtain ⟨fr, cl⟩ := cam
  cases fr <;> cases e <;>
    (try (rename_i x; cases x)) <;>
    simp only [CoreNew.transition_frame] at h <;>
    first
      | ((split at h <;> try split at h) <;> simp_all)
      | simp_all

/-- Helper for C10: any `ClassifyFrames` effect of a `Connected`-phase step
of `core_new.rs` carries a non-empty frame list. -/
theorem transition_connected_classify_nonempty (config : Config)
    (sc : CoreNew.StateConnected) (e : CoreNew.Event) (fs : List Frame)
    (h : CoreNew.Effect.ClassifyFrames fs ∈ (CoreNew.transition_connected config sc e).2) :
    fs ≠ [] := by
  obtain ⟨cam, d⟩ := sc
  simp only [CoreNew.transition_connected, List.mem_append] at h
  rcases h with h | h
  · exact absurd h (transition_door_no_classify d e fs)
  · exact transition_frame_classify_nonempty config cam e fs h

/-- C10: every `ClassifyFrames{frames}` effect returned by either
transition function — from any state, for any event — carries a non-empty
frames list: the capture-completion handlers guard on `frames.is_empty()`,
so the classifier is never invoked with zero frames. -/
theorem c10_classify_frames_nonempty (config : Config) (fs : List Frame) :
    (∀ (n : Instant) (s : Core.State) (e : Core.Event),
      Core.Effect.ClassifyFrames fs ∈ (Core.transition config n s e).2 → fs ≠ []) ∧
    (∀ (s : CoreNew.State) (e : CoreNew.Event),
      CoreNew.Effect.ClassifyFrames fs ∈ (CoreNew.transition config s e).2 → fs ≠ []) := by
  constructor
  · intro n s e h
    cases s <;> cases e <;>
      (try (rename_i x; cases x)) <;>
      simp only [Core.transition] at h <;>
      first
        | ((split at h <;> try split at h) <;> simp_all)
        | simp_all
  · intro s e h
    cases s with
    | Connecting sc =>
      cases sc <;> cases e <;> (try (rename_i x; cases x)) <;>
        simp_all [CoreNew.transition, CoreNew.transition_connecting]
    | Connected sc =>
      cases e <;> (try (rename_i ev; cases ev)) <;>
        first
          | exact transition_connected_classify_nonempty config sc _ fs h
          | simp_all [CoreNew.transition]

/-- C10 (witness): the theorem applied at a concrete capture completion that
emits `ClassifyFrames [[0]]`. -/
theorem c10_witness :
    Core.Effect.ClassifyFrames [[0]] ∈
      (Core.transition testConfig 0 (Core.State.AnalyzingFramesCapture Core.DoorState.Locked)
        (Core.Event.FramesCaptureDone (Except.ok [[0]]))).2 ∧
    ([[0]] : List Frame) ≠ [] :=
  ⟨by decide, (c10_classify_frames_nonempty testConfig [[0]]).1 0
    (Core.State.AnalyzingFramesCapture Core.DoorState.Locked)
    (Core.Event.FramesCaptureDone (Except.ok [[0]])) (by decide)⟩
